import Mathlib

/-! Shallow embedding of the a9-v720 camera server (Rust) and proofs about the
behaviours its specification claims.  Machine integers are modelled as `Nat`
with explicit `% 2^w` reductions where the Rust code relies on fixed-width
arithmetic; byte strings are `List Nat` whose elements are byte values.
-/

namespace A9V720

abbrev Bytes := List Nat

/-- Little-endian encoding of a `u32` value (`u32::to_le_bytes` /
`BufMut::put_u32_le`). -/
def u32ToLe (n : Nat) : Bytes :=
  [n % 256, n / 256 % 256, n / 65536 % 256, n / 16777216 % 256]

/-- Little-endian encoding of a `u16` value (`BufMut::put_u16_le`). -/
def u16ToLe (n : Nat) : Bytes :=
  [n % 256, n / 256 % 256]

/-- Little-endian encoding of a `usize` value on the 64-bit targets this
server is built for (`usize::to_le_bytes` yields 8 bytes there). -/
def usize64ToLe (n : Nat) : Bytes :=
  [n % 256, n / 256 % 256, n / 65536 % 256, n / 16777216 % 256,
   n / 4294967296 % 256, n / 1099511627776 % 256,
   n / 281474976710656 % 256, n / 72057594037927936 % 256]

/-- Little-endian decoding of four bytes (`Buf::get_u32_le`,
`u32::from_le_bytes`). -/
def leNat4 (a b c d : Nat) : Nat :=
  a + 256 * b + 65536 * c + 16777216 * d

/-- The ASCII string of eight `'0'` characters (`b"00000000"`). -/
def asciiZeros8 : Bytes := List.replicate 8 48

theorem leNat4_u32ToLe (n : Nat) (h : n < 4294967296) :
    leNat4 (n % 256) (n / 256 % 256) (n / 65536 % 256) (n / 16777216 % 256) = n := by
  unfold leNat4
  omega

/-! Section `src/protocol/binary.rs`: the 20-byte protocol header -/

/-- Source `ProtocolHeader` (src/protocol/binary.rs).  `fwd_id` is the `[u8; 8]`
forward-id field, modelled as a byte list of length 8. -/
structure ProtocolHeader where
  length : Nat
  cmd : Nat
  msg_flag : Nat
  deal_fl : Nat
  fwd_id : Bytes
  pkg_id : Nat
deriving DecidableEq

/-- Source `ProtocolHeader::to_bytes`: length (u32 LE), cmd (u16 LE), msg_flag,
deal_fl, fwd_id (8 bytes), pkg_id (u32 LE). -/
def ProtocolHeader.to_bytes (h : ProtocolHeader) : Bytes :=
  u32ToLe h.length ++ u16ToLe h.cmd ++ [h.msg_flag, h.deal_fl] ++ h.fwd_id ++ u32ToLe h.pkg_id

/-- Source `ProtocolHeader::from_bytes`: fails on fewer than 20 bytes, otherwise
reads the fields in order and returns the remaining bytes as the payload. -/
def ProtocolHeader.from_bytes : Bytes → Option (ProtocolHeader × Bytes)
  | a0 :: a1 :: a2 :: a3 :: b0 :: b1 :: c :: d ::
    e0 :: e1 :: e2 :: e3 :: e4 :: e5 :: e6 :: e7 ::
    f0 :: f1 :: f2 :: f3 :: rest =>
      some (⟨leNat4 a0 a1 a2 a3, b0 + 256 * b1, c, d,
             [e0, e1, e2, e3, e4, e5, e6, e7], leNat4 f0 f1 f2 f3⟩, rest)
  | _ => none

/-- Source `ProtocolHeader::new`: `deal_fl = 0`, `fwd_id = [0u8; 8]`. -/
def ProtocolHeader.new (cmd length msg_flag pkg_id : Nat) : ProtocolHeader :=
  ⟨length, cmd, msg_flag, 0, List.replicate 8 0, pkg_id⟩

/-- Source `ProtocolHeader::json`: cmd 0, msg_flag 255. -/
def ProtocolHeader.json (pkg_id json_length : Nat) : ProtocolHeader :=
  ProtocolHeader.new 0 json_length 255 pkg_id

/-- Source `ProtocolHeader::binary`: msg_flag 255. -/
def ProtocolHeader.binary (cmd pkg_id data_length : Nat) : ProtocolHeader :=
  ProtocolHeader.new cmd data_length 255 pkg_id

/-- A header-plus-payload frame for a tuple `(cmd, msg_flag, pkg_id, payload)`:
the header is built with `ProtocolHeader::new` over the payload length
(as every send site in the repository does) and serialized in front of the
payload. -/
def encodeFrame (cmd msg_flag pkg_id : Nat) (payload : Bytes) : Bytes :=
  (ProtocolHeader.new cmd payload.length msg_flag pkg_id).to_bytes ++ payload

/-- C3: For every valid header tuple `(cmd, msg_flag, pkg_id, payload)` with
`|payload| <= 65516`, encoding the 20-byte header plus payload and then
decoding yields the identical tuple (header fields and payload). -/
theorem c3_codec_round_trip (cmd msg_flag pkg_id : Nat) (payload : Bytes)
    (hc : cmd < 65536) (hm : msg_flag < 256) (hp : pkg_id < 4294967296)
    (hl : payload.length ≤ 65516) :
    ProtocolHeader.from_bytes (encodeFrame cmd msg_flag pkg_id payload) =
      some (ProtocolHeader.new cmd payload.length msg_flag pkg_id, payload) := by
  show ProtocolHeader.from_bytes
      (payload.length % 256 :: payload.length / 256 % 256 ::
       payload.length / 65536 % 256 :: payload.length / 16777216 % 256 ::
       cmd % 256 :: cmd / 256 % 256 :: msg_flag :: 0 ::
       0 :: 0 :: 0 :: 0 :: 0 :: 0 :: 0 :: 0 ::
       pkg_id % 256 :: pkg_id / 256 % 256 :: pkg_id / 65536 % 256 ::
       pkg_id / 16777216 % 256 :: payload) = _
  simp only [ProtocolHeader.from_bytes, ProtocolHeader.new, Option.some.injEq, Prod.mk.injEq,
    ProtocolHeader.mk.injEq, List.replicate]
  refine ⟨⟨?_, ?_, ?_, ?_, ?_, ?_⟩, ?_⟩ <;>
    first
    | trivial
    | omega
    | (unfold leNat4; omega)

theorem c3_codec_round_trip_witness :
    ProtocolHeader.from_bytes (encodeFrame 0 255 7 [1, 2, 3]) =
      some (ProtocolHeader.new 0 3 255 7, [1, 2, 3]) :=
  c3_codec_round_trip 0 255 7 [1, 2, 3] (by decide) (by decide) (by decide) (by decide)

/-! Section `src/router/udp.rs`: CMD=605 retransmission acknowledgements -/

/-- Source `UdpRouter::send_batch_retransmission_confirmation`: the message is
`total_length` (a `usize`, so `to_le_bytes` emits 8 bytes on the 64-bit
targets this server runs on), then `605u32` LE, then the 8-byte ASCII
`"00000000"` target, then the package ids as u32 LE each, with
`total_length = 4 + 8 + package_ids.len() * 4`. -/
def batchRetransmissionMessage (package_ids : List Nat) : Bytes :=
  usize64ToLe (4 + 8 + package_ids.length * 4) ++ u32ToLe 605 ++ asciiZeros8 ++
    (package_ids.map u32ToLe).flatten

/-- Source `UdpRouter::send_empty_retransmission_confirmation`: here `total_length`
is an explicit `u32`, so the prefix is 4 bytes. -/
def emptyRetransmissionMessage : Bytes :=
  u32ToLe 12 ++ u32ToLe 605 ++ asciiZeros8

/-- Source `UdpRouter::handle_udp_heartbeat` reply: same u32-prefixed empty CMD=605
message. -/
def udpHeartbeatResponseMessage : Bytes :=
  u32ToLe 12 ++ u32ToLe 605 ++ asciiZeros8

/-- Modelled from the spec: the claimed CMD=605 wire format
`[len u32 LE][605 u32 LE][8 ASCII zero bytes][k packet ids u32 LE]` with
`len = 4 + 8 + 4*k` (refinement target for C1, following the spec's words). -/
def spec605Wire (ids : List Nat) : Bytes :=
  u32ToLe (4 + 8 + 4 * ids.length) ++ u32ToLe 605 ++ asciiZeros8 ++
    (ids.map u32ToLe).flatten

/-- C1: the batch acknowledgement path length-prefixes with a `usize`
(8 bytes little-endian on the 64-bit build target), not a `u32`, so a
non-empty acknowledgement does not match the claimed wire format, while the
empty and heartbeat acknowledgements do. -/
theorem c1_batch_message_has_8_byte_length_prefix :
    batchRetransmissionMessage [1] =
      [16, 0, 0, 0, 0, 0, 0, 0, 93, 2, 0, 0,
       48, 48, 48, 48, 48, 48, 48, 48, 1, 0, 0, 0]
    ∧ spec605Wire [1] =
      [16, 0, 0, 0, 93, 2, 0, 0,
       48, 48, 48, 48, 48, 48, 48, 48, 1, 0, 0, 0]
    ∧ batchRetransmissionMessage [1] ≠ spec605Wire [1]
    ∧ emptyRetransmissionMessage = spec605Wire []
    ∧ udpHeartbeatResponseMessage = spec605Wire [] := by
  refine ⟨by decide, by decide, by decide, by decide, by decide⟩

/-! Section `src/types.rs`: StreamBuffer, frame reassembly, ring buffer -/

/-- Source `FrameFragment` (src/types.rs): an in-progress frame assembly. -/
structure FrameFragment where
  frame_type : Nat
  pkg_id : Nat
  fragments : List Bytes
  expected_size : Option Nat
  is_complete : Bool
deriving DecidableEq

/-- Source `StreamBuffer` (src/types.rs): completed frames (oldest first, matching
`VecDeque` with `push_back`/`pop_front`), the capacity, and the current
in-progress assembly. -/
structure StreamBuffer where
  frames : List Bytes
  max_frames : Nat
  current_frame : Option FrameFragment
deriving DecidableEq

/-- Source `StreamBuffer::new`. -/
def StreamBuffer.new (max_frames : Nat) : StreamBuffer :=
  ⟨[], max_frames, none⟩

/-- The little-endian value of the last four bytes of a fragment: the
size-hint read in `assemble_frame` and `complete_frame`
(`u32::from_le_bytes` over `fragment[len-4..]`). -/
def hintOf (frag : Bytes) : Nat :=
  match frag.drop (frag.length - 4) with
  | [a, b, c, d] => leNat4 a b c d
  | _ => 0

/-- Source `StreamBuffer::assemble_frame`: `None` on an empty fragment list;
otherwise every fragment is concatenated, except that the last fragment is
truncated by 4 bytes when it is at least 4 bytes long and its trailing
little-endian u32 is a plausible size (`size > 0 && size < 1000000`).
The `total_size`/`expected_size` computations of the source only feed a
capacity reservation and a warning log, so they do not appear in the
result. -/
def assemble_frame (fragments : List Bytes) : Option Bytes :=
  if fragments = [] then none
  else
    some (fragments.dropLast.flatten ++
      (if 4 ≤ (fragments.getLastD []).length ∧ 0 < hintOf (fragments.getLastD [])
          ∧ hintOf (fragments.getLastD []) < 1000000 then
        (fragments.getLastD []).take ((fragments.getLastD []).length - 4)
      else fragments.getLastD []))

/-- Source `StreamBuffer::add_complete_frame`: evict the oldest frame when the
buffer is full, then append. -/
def StreamBuffer.add_complete_frame (sb : StreamBuffer) (frame : Bytes) : StreamBuffer :=
  let frames := if sb.max_frames ≤ sb.frames.length then sb.frames.drop 1 else sb.frames
  { sb with frames := frames ++ [frame] }

/-- Source `StreamBuffer::complete_frame`: take the in-progress assembly (clearing
it), append the terminator payload, record the trailing size hint when the
payload has at least 4 bytes (used only for a warning), assemble and store
the frame.  Returns `false` when no assembly was in progress. -/
def StreamBuffer.complete_frame (sb : StreamBuffer) (payload : Bytes) :
    StreamBuffer × Bool :=
  match sb.current_frame with
  | none => ({ sb with current_frame := none }, false)
  | some fr =>
    let fragments := fr.fragments ++ [payload]
    match assemble_frame fragments with
    | some cf => (StreamBuffer.add_complete_frame { sb with current_frame := none } cf, true)
    | none => ({ sb with current_frame := none }, false)

/-- Source `StreamBuffer::start_new_frame`: begin a fresh assembly (`pkg_id` is
deliberately not used for assembly in the source). -/
def StreamBuffer.start_new_frame (sb : StreamBuffer) (payload : Bytes) : StreamBuffer :=
  { sb with current_frame := some ⟨1, 0, [payload], none, false⟩ }

/-- Source `StreamBuffer::add_frame_fragment`: append to the in-progress assembly,
dropping the fragment when none exists. -/
def StreamBuffer.add_frame_fragment (sb : StreamBuffer) (payload : Bytes) : StreamBuffer :=
  match sb.current_frame with
  | some fr => { sb with current_frame := some { fr with fragments := fr.fragments ++ [payload] } }
  | none => sb

/-- Source `StreamBuffer::add_fragment`: dispatch on `(cmd, msg_flag)`.  Audio
(`cmd=6`) is acknowledged without touching the video buffer; video
(`cmd=1`) starts (250), continues (251) or finalizes (252) an assembly;
anything else returns `false`. -/
def StreamBuffer.add_fragment (sb : StreamBuffer) (cmd msg_flag : Nat) (payload : Bytes) :
    StreamBuffer × Bool :=
  if cmd = 6 then (sb, true)
  else if cmd = 1 ∧ msg_flag = 250 then (sb.start_new_frame payload, true)
  else if cmd = 1 ∧ msg_flag = 251 then (sb.add_frame_fragment payload, true)
  else if cmd = 1 ∧ msg_flag = 252 then ((sb.complete_frame payload).1, true)
  else (sb, false)

/-- Source `StreamBuffer::complete_incomplete_frame` (periodic sweep): force-finalize
an assembly only when it has at least 2 fragments; otherwise discard it. -/
def StreamBuffer.complete_incomplete_frame (sb : StreamBuffer) : StreamBuffer × Bool :=
  match sb.current_frame with
  | none => (sb, false)
  | some fr =>
    if 1 < fr.fragments.length then
      match assemble_frame fr.fragments with
      | some cf => (StreamBuffer.add_complete_frame { sb with current_frame := none } cf, true)
      | none => ({ sb with current_frame := none }, false)
    else ({ sb with current_frame := none }, false)

/-- C5 counterexample: a two-fragment frame whose terminator ends in the
little-endian bytes of 1048575.  The claim's bound (`hint < 1 MiB =
1048576`) would strip these 4 bytes, leaving `[170]`; the code's bound is
`hint < 1000000`, so the whole terminator is retained. -/
theorem c5_counterexample_hint_between_bounds :
    (((StreamBuffer.new 100).add_fragment 1 250 [170]).1.add_fragment 1 252
        [255, 255, 15, 0]).1.frames = [[170, 255, 255, 15, 0]]
    ∧ hintOf [255, 255, 15, 0] = 1048575
    ∧ 0 < (1048575 : Nat) ∧ (1048575 : Nat) < 1048576
    ∧ (((StreamBuffer.new 100).add_fragment 1 250 [170]).1.add_fragment 1 252
        [255, 255, 15, 0]).1.frames ≠ [[170]] := by
  refine ⟨by decide, by decide, by decide, by decide, by decide⟩

theorem assemble_frame_concat (l : List Bytes) (p : Bytes) :
    assemble_frame (l ++ [p]) =
      some (l.flatten ++
        (if 4 ≤ p.length ∧ 0 < hintOf p ∧ hintOf p < 1000000 then
          p.take (p.length - 4)
        else p)) := by
  unfold assemble_frame
  rw [if_neg (by simp), List.getLastD_concat, List.dropLast_concat]

theorem complete_frame_some (sb : StreamBuffer) (fr : FrameFragment) (p : Bytes)
    (h : sb.current_frame = some fr) :
    sb.complete_frame p =
      (StreamBuffer.add_complete_frame { sb with current_frame := none }
        (fr.fragments.flatten ++
          (if 4 ≤ p.length ∧ 0 < hintOf p ∧ hintOf p < 1000000 then
            p.take (p.length - 4)
          else p)), true) := by
  simp only [StreamBuffer.complete_frame, h, assemble_frame_concat]

theorem add_fragment_252_some (sb : StreamBuffer) (fr : FrameFragment) (p : Bytes)
    (h : sb.current_frame = some fr) :
    sb.add_fragment 1 252 p =
      (StreamBuffer.add_complete_frame { sb with current_frame := none }
        (fr.fragments.flatten ++
          (if 4 ≤ p.length ∧ 0 < hintOf p ∧ hintOf p < 1000000 then
            p.take (p.length - 4)
          else p)), true) := by
  simp [StreamBuffer.add_fragment, complete_frame_some sb fr p h]

theorem add_fragment_251_foldl (ps : List Bytes) :
    ∀ (sb : StreamBuffer) (fr : FrameFragment), sb.current_frame = some fr →
      (ps.foldl (fun b q => (b.add_fragment 1 251 q).1) sb) =
        { sb with current_frame := some { fr with fragments := fr.fragments ++ ps } } := by
  induction ps with
  | nil =>
    intro sb fr h
    cases sb
    simp at h
    simp [h]
  | cons p rest ih =>
    intro sb fr h
    simp only [List.foldl_cons]
    rw [ih ((sb.add_fragment 1 251 p).1) { fr with fragments := fr.fragments ++ [p] }
      (by simp [StreamBuffer.add_fragment, StreamBuffer.add_frame_fragment, h])]
    simp [StreamBuffer.add_fragment, StreamBuffer.add_frame_fragment, h]

/-- C5 (amended): running a start fragment `p0`, middle fragments `ps` and a
terminator `p` through `add_fragment` finalizes exactly one frame
`p0 ++ ps.flatten ++ p*`, where the trailing 4 bytes of `p` are stripped
exactly when `p` is at least 4 bytes long and its trailing little-endian
u32 hint satisfies `0 < hint < 1000000` (one million, not 1 MiB);
otherwise the whole terminator content is retained. -/
theorem c5_amended_strip_threshold_is_1000000 (sb : StreamBuffer) (p0 p : Bytes)
    (ps : List Bytes) :
    ((ps.foldl (fun b q => (b.add_fragment 1 251 q).1)
        (sb.add_fragment 1 250 p0).1).add_fragment 1 252 p).1 =
      StreamBuffer.add_complete_frame { sb with current_frame := none }
        (p0 ++ ps.flatten ++
          (if 4 ≤ p.length ∧ 0 < hintOf p ∧ hintOf p < 1000000 then
            p.take (p.length - 4)
          else p)) := by
  rw [add_fragment_251_foldl ps (sb.add_fragment 1 250 p0).1 ⟨1, 0, [p0], none, false⟩
    (by simp [StreamBuffer.add_fragment, StreamBuffer.start_new_frame])]
  rw [add_fragment_252_some _ ⟨1, 0, [p0] ++ ps, none, false⟩ p (by simp)]
  simp [StreamBuffer.add_fragment, StreamBuffer.start_new_frame, List.append_assoc]

/-- The ring push preserves the capacity field. -/
theorem add_complete_frame_max (sb : StreamBuffer) (f : Bytes) :
    (sb.add_complete_frame f).max_frames = sb.max_frames := rfl

theorem ring_foldl_frames (N : Nat) (hN : 0 < N) (xs : List Bytes) :
    (xs.foldl StreamBuffer.add_complete_frame (StreamBuffer.new N)).frames =
      xs.drop (xs.length - N)
    ∧ (xs.foldl StreamBuffer.add_complete_frame (StreamBuffer.new N)).max_frames = N := by
  induction xs using List.reverseRecOn with
  | nil => simp [StreamBuffer.new]
  | append_singleton ys y ih =>
    rw [List.foldl_append]
    obtain ⟨ihf, ihm⟩ := ih
    constructor
    · simp only [List.foldl_cons, List.foldl_nil, StreamBuffer.add_complete_frame, ihf, ihm,
        List.length_append, List.length_cons, List.length_nil, List.length_drop]
      by_cases hlen : N ≤ ys.length
      · rw [if_pos (by omega : N ≤ ys.length - (ys.length - N))]
        rw [List.drop_drop, List.drop_append_of_le_length (by omega)]
        congr 2
        omega
      · rw [if_neg (by omega)]
        have h2 : ys.length - N = 0 := by omega
        have h3 : ys.length + 0 + 1 - N = 0 := by omega
        simp [h2, h3]
    · simp [StreamBuffer.add_complete_frame, ihm]

/-- C6: after any sequence of completed-frame insertions into a fresh ring
buffer of capacity `N ≥ 1`, the buffer holds at most `N` frames and they
are exactly the most recently completed ones, oldest evicted first
(the sessions of `CameraConnection::new` use `N = 100`). -/
theorem c6_ring_buffer_bound (N : Nat) (hN : 0 < N) (xs : List Bytes) :
    (xs.foldl StreamBuffer.add_complete_frame (StreamBuffer.new N)).frames.length ≤ N
    ∧ (xs.foldl StreamBuffer.add_complete_frame (StreamBuffer.new N)).frames =
        xs.drop (xs.length - N) := by
  obtain ⟨hf, _⟩ := ring_foldl_frames N hN xs
  refine ⟨?_, hf⟩
  rw [hf, List.length_drop]
  omega

theorem c6_ring_buffer_bound_witness :
    (([[1], [2], [3]] : List Bytes).foldl StreamBuffer.add_complete_frame
        (StreamBuffer.new 2)).frames.length ≤ 2
    ∧ (([[1], [2], [3]] : List Bytes).foldl StreamBuffer.add_complete_frame
        (StreamBuffer.new 2)).frames = ([[1], [2], [3]] : List Bytes).drop (3 - 2) :=
  c6_ring_buffer_bound 2 (by decide) [[1], [2], [3]]

/-- C10: finalization is total.  A terminator shorter than 4 bytes yields no
size hint and is retained whole; finalizing with no assembly in progress is
a clean `false` that leaves the stored frames untouched; a non-empty
fragment list always assembles to a frame; and the assembled frame never
exceeds the total fragment bytes (the truncation arithmetic cannot
underflow past the fragment). -/
theorem c10_finalization_total (fr : FrameFragment) (sb : StreamBuffer)
    (fragments : List Bytes) (payload r : Bytes)
    (hshort : payload.length < 4)
    (hnone : sb.current_frame = none)
    (hne : fragments ≠ [])
    (hr : assemble_frame fragments = some r) :
    assemble_frame (fr.fragments ++ [payload]) =
        some (fr.fragments.flatten ++ payload)
    ∧ (sb.complete_frame payload).2 = false
    ∧ (sb.complete_frame payload).1.frames = sb.frames
    ∧ (assemble_frame fragments).isSome
    ∧ r.length ≤ (fragments.map List.length).sum := by
  refine ⟨?_, ?_, ?_, ?_, ?_⟩
  · rw [assemble_frame_concat]
    rw [if_neg (fun hcon => absurd hcon.1 (by omega))]
  · simp [StreamBuffer.complete_frame, hnone]
  · simp [StreamBuffer.complete_frame, hnone]
  · rw [hr]; rfl
  · induction fragments using List.reverseRecOn with
    | nil => exact absurd rfl hne
    | append_singleton ys y _ =>
      rw [assemble_frame_concat, Option.some.injEq] at hr
      subst hr
      simp only [List.length_append, List.length_flatten, List.map_append, List.sum_append,
        List.map_cons, List.map_nil, List.sum_cons, List.sum_nil]
      have hy : (if 4 ≤ y.length ∧ 0 < hintOf y ∧ hintOf y < 1000000 then
          y.take (y.length - 4) else y).length ≤ y.length := by
        split
        · simp [List.length_take]
        · exact Nat.le_refl _
      omega

theorem c10_finalization_total_witness :
    assemble_frame ((FrameFragment.mk 1 0 [[1, 2], [3]] none false).fragments ++ [[9]]) =
        some ([1, 2, 3] ++ [9])
    ∧ ((StreamBuffer.new 100).complete_frame [9]).2 = false
    ∧ ((StreamBuffer.new 100).complete_frame [9]).1.frames = (StreamBuffer.new 100).frames
    ∧ (assemble_frame [[1, 2], [3], [9]]).isSome
    ∧ ([1, 2, 3, 9] : Bytes).length ≤ ([[1, 2], [3], [9]].map List.length).sum := by
  have h := c10_finalization_total ⟨1, 0, [[1, 2], [3]], none, false⟩ (StreamBuffer.new 100)
    [[1, 2], [3], [9]] [9] [1, 2, 3, 9] (by decide) rfl (by decide) (by decide)
  simpa using h

/-! Section `src/types.rs` + `src/router/udp.rs`: retransmission bucket and the
end-frame CMD=605 logic of `UdpRouter::handle_video_frame` -/

/-- The session state touched by `UdpRouter::handle_video_frame`
(`CameraConnection`, src/types.rs): the video buffer, the
first-empty-retransmission flag, the retransmission bucket and the
legacy received-packages list. -/
structure CameraConnection where
  stream_buffer : StreamBuffer
  first_retransmission_sent : Bool
  retransmission_bucket : List Nat
  received_packages : List Nat
deriving DecidableEq

/-- Source `CameraConnection::add_to_retransmission_bucket`: de-duplicated push. -/
def CameraConnection.add_to_retransmission_bucket (c : CameraConnection) (pkg_id : Nat) :
    CameraConnection :=
  if pkg_id ∈ c.retransmission_bucket then c
  else { c with retransmission_bucket := c.retransmission_bucket ++ [pkg_id] }

/-- Source `CameraConnection::get_and_clear_retransmission_bucket`. -/
def CameraConnection.get_and_clear_retransmission_bucket (c : CameraConnection) :
    List Nat × CameraConnection :=
  (c.retransmission_bucket, { c with retransmission_bucket := [] })

/-- Source `CameraConnection::add_received_package`: de-duplicated push. -/
def CameraConnection.add_received_package (c : CameraConnection) (pkg_id : Nat) :
    CameraConnection :=
  if pkg_id ∈ c.received_packages then c
  else { c with received_packages := c.received_packages ++ [pkg_id] }

/-- A CMD=605 emission of `handle_video_frame`: either the empty
acknowledgement or a batch with the flushed package-id list. -/
inductive Emission where
  | emptyConf
  | batchConf (ids : List Nat)
deriving DecidableEq

/-- Source `UdpRouter::handle_video_frame`, restricted to the per-session state (the
socket bookkeeping and UDP-port map are connection plumbing with no effect
on the claims): add the fragment to the stream buffer, add `pkg_id` to the
retransmission bucket, and on `msg_flag = 252` either emit the first empty
CMD=605 (setting the flag, not clearing the bucket) or flush the bucket and
emit a batch CMD=605 when the flushed list is non-empty; finally record the
package id in the legacy received-packages list. -/
def handle_video_frame (c : CameraConnection) (cmd msg_flag pkg_id : Nat) (payload : Bytes) :
    CameraConnection × Option Emission :=
  let c := { c with stream_buffer := (c.stream_buffer.add_fragment cmd msg_flag payload).1 }
  let c := c.add_to_retransmission_bucket pkg_id
  let (c, em) :=
    if msg_flag = 252 then
      if c.first_retransmission_sent = false then
        ({ c with first_retransmission_sent := true }, some Emission.emptyConf)
      else
        let (packages, c) := c.get_and_clear_retransmission_bucket
        if packages ≠ [] then (c, some (Emission.batchConf packages)) else (c, none)
    else (c, none)
  (c.add_received_package pkg_id, em)

/-- One packet of a UDP video/audio trace. -/
structure Packet where
  cmd : Nat
  msg_flag : Nat
  pkg_id : Nat
  payload : Bytes
deriving DecidableEq

/-- Run `handle_video_frame` over a packet trace, collecting emissions. -/
def runVideoFrames (c : CameraConnection) : List Packet → CameraConnection × List Emission
  | [] => (c, [])
  | p :: rest =>
    let r := handle_video_frame c p.cmd p.msg_flag p.pkg_id p.payload
    let r2 := runVideoFrames r.1 rest
    (r2.1, r.2.toList ++ r2.2)

/-- The bucket after the de-duplicated push. -/
def addBucket (b : List Nat) (x : Nat) : List Nat :=
  if x ∈ b then b else b ++ [x]

theorem addBucket_ne_nil (b : List Nat) (x : Nat) : addBucket b x ≠ [] := by
  unfold addBucket
  split
  · intro hnil
    subst hnil
    simp_all
  · simp

theorem mem_addBucket (b : List Nat) (x y : Nat) :
    y ∈ addBucket b x ↔ y ∈ b ∨ y = x := by
  unfold addBucket
  split
  · rename_i hx
    constructor
    · exact fun h => Or.inl h
    · rintro (h | rfl) <;> assumption
  · simp

theorem handle_video_frame_first (c : CameraConnection) (cmd pkg_id : Nat) (payload : Bytes)
    (h : c.first_retransmission_sent = false) :
    handle_video_frame c cmd 252 pkg_id payload =
      ((⟨(c.stream_buffer.add_fragment cmd 252 payload).1, true,
          addBucket c.retransmission_bucket pkg_id,
          c.received_packages⟩ : CameraConnection).add_received_package pkg_id,
        some Emission.emptyConf) := by
  obtain ⟨sbf, first, bucket, recvd⟩ := c
  simp only at h
  subst h
  by_cases hmem : pkg_id ∈ bucket <;>
    simp [handle_video_frame, CameraConnection.add_to_retransmission_bucket,
      CameraConnection.get_and_clear_retransmission_bucket, addBucket, hmem]

theorem handle_video_frame_subsequent (c : CameraConnection) (cmd pkg_id : Nat)
    (payload : Bytes) (h : c.first_retransmission_sent = true) :
    handle_video_frame c cmd 252 pkg_id payload =
      ((⟨(c.stream_buffer.add_fragment cmd 252 payload).1, true, [],
          c.received_packages⟩ : CameraConnection).add_received_package pkg_id,
        some (Emission.batchConf (addBucket c.retransmission_bucket pkg_id))) := by
  obtain ⟨sbf, first, bucket, recvd⟩ := c
  simp only at h
  subst h
  by_cases hmem : pkg_id ∈ bucket
  · simp [handle_video_frame, CameraConnection.add_to_retransmission_bucket,
      CameraConnection.get_and_clear_retransmission_bucket, addBucket, hmem,
      List.ne_nil_of_mem hmem]
  · simp [handle_video_frame, CameraConnection.add_to_retransmission_bucket,
      CameraConnection.get_and_clear_retransmission_bucket, addBucket, hmem]

theorem handle_video_frame_no_end (c : CameraConnection) (cmd msg_flag pkg_id : Nat)
    (payload : Bytes) (h : msg_flag ≠ 252) :
    (handle_video_frame c cmd msg_flag pkg_id payload).2 = none
    ∧ (handle_video_frame c cmd msg_flag pkg_id payload).1.retransmission_bucket =
        addBucket c.retransmission_bucket pkg_id
    ∧ (handle_video_frame c cmd msg_flag pkg_id payload).1.first_retransmission_sent =
        c.first_retransmission_sent := by
  obtain ⟨sbf, first, bucket, recvd⟩ := c
  by_cases hmem : pkg_id ∈ bucket <;>
    simp [handle_video_frame, CameraConnection.add_to_retransmission_bucket,
      CameraConnection.add_received_package, addBucket, if_neg h, hmem] <;>
    split <;> simp

/-- C2: the first-end-frame rule of `handle_video_frame`.  On a terminator
packet: when the first-empty-acknowledgement flag is still clear, the
emission is the empty CMD=605, the flag is set, and the bucket is not
cleared (it still grows by the terminator's own id); when the flag is
already set, the emission is a batch CMD=605 whose id list is exactly the
de-duplicated bucket collected since the previous flush (terminator id
included), that list is never empty, and the flush clears the bucket.
On non-terminator packets nothing is emitted and the bucket only
accumulates the (de-duplicated) received package ids. -/
theorem c2_first_end_frame_rule (c : CameraConnection) (cmd pkg_id : Nat)
    (payload : Bytes) (ps : List Packet) :
    (c.first_retransmission_sent = false →
      (handle_video_frame c cmd 252 pkg_id payload).2 = some Emission.emptyConf
      ∧ (handle_video_frame c cmd 252 pkg_id payload).1.first_retransmission_sent = true
      ∧ (handle_video_frame c cmd 252 pkg_id payload).1.retransmission_bucket =
          addBucket c.retransmission_bucket pkg_id)
    ∧ (c.first_retransmission_sent = true →
      (handle_video_frame c cmd 252 pkg_id payload).2 =
          some (Emission.batchConf (addBucket c.retransmission_bucket pkg_id))
      ∧ addBucket c.retransmission_bucket pkg_id ≠ []
      ∧ (handle_video_frame c cmd 252 pkg_id payload).1.retransmission_bucket = [])
    ∧ ((∀ q ∈ ps, q.msg_flag ≠ 252) →
      (runVideoFrames c ps).2 = []
      ∧ ∀ x, x ∈ (runVideoFrames c ps).1.retransmission_bucket ↔
          x ∈ c.retransmission_bucket ∨ x ∈ ps.map Packet.pkg_id) := by
  refine ⟨?_, ?_, ?_⟩
  · intro h
    rw [handle_video_frame_first c cmd pkg_id payload h]
    refine ⟨rfl, ?_, ?_⟩ <;>
      simp [CameraConnection.add_received_package] <;> split <;> simp
  · intro h
    rw [handle_video_frame_subsequent c cmd pkg_id payload h]
    refine ⟨rfl, addBucket_ne_nil _ _, ?_⟩
    simp [CameraConnection.add_received_package]
    split <;> simp
  · induction ps generalizing c with
    | nil => intro _; simp [runVideoFrames]
    | cons q rest ih =>
      intro hflags
      have hq : q.msg_flag ≠ 252 := hflags q (by simp)
      obtain ⟨hem, hbucket, _⟩ :=
        handle_video_frame_no_end c q.cmd q.msg_flag q.pkg_id q.payload hq
      obtain ⟨ihem, ihbucket⟩ :=
        ih ((handle_video_frame c q.cmd q.msg_flag q.pkg_id q.payload).1)
          (fun r hr => hflags r (by simp [hr]))
      constructor
      · simp [runVideoFrames, hem, ihem]
      · intro x
        simp only [runVideoFrames, List.map_cons, List.mem_cons]
        rw [ihbucket x, hbucket, mem_addBucket]
        constructor
        · rintro ((h | h) | h)
          · exact Or.inl h
          · exact Or.inr (Or.inl h)
          · exact Or.inr (Or.inr h)
        · rintro (h | h | h)
          · exact Or.inl (Or.inl h)
          · exact Or.inl (Or.inr h)
          · exact Or.inr h

theorem c2_first_end_frame_rule_witness :
    (handle_video_frame ⟨StreamBuffer.new 100, false, [3], []⟩ 1 252 5 [1]).2 =
        some Emission.emptyConf
    ∧ (handle_video_frame ⟨StreamBuffer.new 100, false, [3], []⟩ 1 252 5 [1]).1.retransmission_bucket =
        addBucket [3] 5
    ∧ (handle_video_frame ⟨StreamBuffer.new 100, true, [3], []⟩ 1 252 5 [1]).2 =
        some (Emission.batchConf (addBucket [3] 5))
    ∧ (handle_video_frame ⟨StreamBuffer.new 100, true, [3], []⟩ 1 252 5 [1]).1.retransmission_bucket = []
    ∧ (runVideoFrames ⟨StreamBuffer.new 100, false, [], []⟩ [⟨1, 250, 7, [2]⟩]).2 = [] := by
  have h1 := c2_first_end_frame_rule ⟨StreamBuffer.new 100, false, [3], []⟩ 1 5 [1] []
  have h2 := c2_first_end_frame_rule ⟨StreamBuffer.new 100, true, [3], []⟩ 1 5 [1] []
  have h3 := c2_first_end_frame_rule ⟨StreamBuffer.new 100, false, [], []⟩ 1 5 [1]
    [⟨1, 250, 7, [2]⟩]
  exact ⟨(h1.1 rfl).1, (h1.1 rfl).2.2, (h2.2.1 rfl).1, (h2.2.1 rfl).2.2,
    (h3.2.2 (by decide)).1⟩

/-! Section `src/pipeline.rs`, `src/main.rs`, `src/router/tcp.rs`,
`src/camera.rs`: emitted headers, forward-id bytes and keepalive replies -/

/-- The hardcoded 20-byte header that `serialize_response` (src/pipeline.rs)
puts in front of every JSON response (`RegisterSuccess`,
`StreamingStarted`, `StreamingStopped`, `StreamingTriggered`, `Error`):
`[0x19,0,0,0, 0,0, 0xff,0, 0xff * 8, 0,0,0,0]`. -/
def jsonResponseHeader : Bytes :=
  [25, 0, 0, 0, 0, 0, 255, 0, 255, 255, 255, 255, 255, 255, 255, 255, 0, 0, 0, 0]

/-- Source `serialize_response` for `Response::KeepaliveResponse` (src/pipeline.rs):
20 zero bytes with byte 4 set to 0x64 and bytes 8..16 set to ASCII `'0'`. -/
def serializeKeepaliveResponse : Bytes :=
  [0, 0, 0, 0, 100, 0, 0, 0, 48, 48, 48, 48, 48, 48, 48, 48, 0, 0, 0, 0]

/-- The hardcoded keepalive reply of `handle_tcp_connection` (src/main.rs). -/
def mainTcpKeepaliveResponse : Bytes :=
  [0, 0, 0, 0, 100, 0, 0, 0, 48, 48, 48, 48, 48, 48, 48, 48, 0, 0, 0, 0]

/-- Source `TcpRouter::handle_keepalive` (src/router/tcp.rs) replies with
`ProtocolHeader::binary(99, 0, 0).to_bytes()`. -/
def tcpRouterKeepaliveResponse : Bytes :=
  (ProtocolHeader.binary 99 0 0).to_bytes

/-- Modelled from the spec: the fixed 20-byte keepalive reply pattern of
section 4.2 — bytes 4..8 are `0x64,0,0,0`, bytes 8..16 are ASCII
`"00000000"`, everything else zero (refinement target for C9, following
the spec's words). -/
def specKeepalivePattern : Bytes :=
  [0, 0, 0, 0, 100, 0, 0, 0, 48, 48, 48, 48, 48, 48, 48, 48, 0, 0, 0, 0]

/-- Source `CameraConnection::create_code11_message` (src/camera.rs) and the
identically framed manual control messages of src/pipeline.rs
(codes 11/21/301): u32-LE JSON length, cmd 0 (u16 LE), msg_flag 0,
deal_flag 0, forward id `b"00000000"`, pkg id 0, then the JSON bytes. -/
def create_code11_message (json_bytes : Bytes) : Bytes :=
  u32ToLe json_bytes.length ++ u16ToLe 0 ++ [0] ++ [0] ++ asciiZeros8 ++ u32ToLe 0 ++ json_bytes

/-- C7 counterexample: the header `serialize_response` emits in front of the
registration response carries eight `0xFF` bytes as forward id, and the
headers built with `ProtocolHeader::new` carry eight `0x00` bytes — neither
is the ASCII string `"00000000"` (eight `0x30` bytes) the claim requires of
every emitted 20-byte header. -/
theorem c7_counterexample_forward_id_not_ascii_zero :
    (jsonResponseHeader.drop 8).take 8 = List.replicate 8 255
    ∧ (jsonResponseHeader.drop 8).take 8 ≠ asciiZeros8
    ∧ ((ProtocolHeader.new 0 25 255 0).to_bytes.drop 8).take 8 = List.replicate 8 0
    ∧ ((ProtocolHeader.new 0 25 255 0).to_bytes.drop 8).take 8 ≠ asciiZeros8
    ∧ jsonResponseHeader.length = 20 := by
  refine ⟨by decide, by decide, by decide, by decide, by decide⟩

/-- Source `serialize_registration_response` (src/protocol.rs), the code-101
registration reply emitted by `handle_camera_registration` in src/main.rs:
u32-LE JSON length, four zero padding bytes, the 8-byte ASCII
`"00000000"` magic, four zero bytes, then the JSON bytes (the source
formats the JSON text with spaces from `message.code` and
`message.status.unwrap_or(200)`; only its length enters the header). -/
def serialize_registration_response (json_bytes : Bytes) : Bytes :=
  u32ToLe json_bytes.length ++ [0, 0, 0, 0] ++ asciiZeros8 ++ [0, 0, 0, 0] ++ json_bytes

/-- C7 (amended): not every 20-byte header the server emits carries the
ASCII forward id `"00000000"` — the forward-id bytes depend on the
construction site.  Headers built via `ProtocolHeader::new` (all
`ProtocolHeader::json`/`binary` reply paths) carry eight `0x00` bytes and
the fixed `serialize_response` JSON header carries eight `0xFF` bytes,
while the manually framed control messages (code 11/21/50/301), the
`serialize_registration_response` code-101 reply and the fixed keepalive
replies do carry ASCII `"00000000"` at bytes 8..16. -/
theorem c7_amended_forward_id_by_path (c l m p : Nat) (json_bytes reg_json : Bytes) :
    (((ProtocolHeader.new c l m p).to_bytes.drop 8).take 8 = List.replicate 8 0)
    ∧ ((jsonResponseHeader.drop 8).take 8 = List.replicate 8 255)
    ∧ (((create_code11_message json_bytes).drop 8).take 8 = asciiZeros8)
    ∧ (((serialize_registration_response reg_json).drop 8).take 8 = asciiZeros8)
    ∧ ((serializeKeepaliveResponse.drop 8).take 8 = asciiZeros8) := by
  refine ⟨?_, by decide, ?_, ?_, by decide⟩
  · rfl
  · rfl
  · rfl

/-- C9 counterexample: `TcpRouter::handle_keepalive` answers a cmd=99 TCP
keepalive with `ProtocolHeader::binary(99,0,0).to_bytes()`, whose byte 4 is
0x63 and whose bytes 8..16 are zero — not the fixed pattern the claim
requires of every TCP keepalive response. -/
theorem c9_counterexample_tcp_router_keepalive :
    tcpRouterKeepaliveResponse =
      [0, 0, 0, 0, 99, 0, 255, 0, 0, 0, 0, 0, 0, 0, 0, 0, 0, 0, 0, 0]
    ∧ tcpRouterKeepaliveResponse ≠ specKeepalivePattern
    ∧ tcpRouterKeepaliveResponse.length = 20 := by
  refine ⟨by decide, by decide, by decide⟩

/-- C9 (amended): the keepalive replies of `serialize_response`
(src/pipeline.rs) and of the main TCP loop (src/main.rs) are exactly the
20-byte fixed pattern of section 4.2, while the `TcpRouter` cmd=99 path
instead replies with a 20-byte zero-length `ProtocolHeader` with cmd 99 and
msg_flag 255. -/
theorem c9_amended_keepalive_shapes :
    serializeKeepaliveResponse = specKeepalivePattern
    ∧ mainTcpKeepaliveResponse = specKeepalivePattern
    ∧ serializeKeepaliveResponse.length = 20
    ∧ tcpRouterKeepaliveResponse =
        [0, 0, 0, 0, 99, 0, 255, 0, 0, 0, 0, 0, 0, 0, 0, 0, 0, 0, 0, 0] := by
  refine ⟨by decide, by decide, by decide, by decide⟩

/-! Section `src/router/udp.rs` and `src/camera.rs`: the 50/51 probe loop -/

/-- Source `ProbeState` (src/types.rs). -/
inductive ProbeState where
  | NotStarted
  | InProgress (count : Nat)
  | Completed
deriving DecidableEq

/-- The ASCII bytes of the JSON text produced by
`serde_json::to_string` for the code-50 probe request
(open brace, quote, `code`, quote, colon, `50`, close brace). -/
def code50Json : Bytes :=
  [123, 34, 99, 111, 100, 101, 34, 58, 53, 48, 125]

/-- The code-50 reply of `UdpRouter::handle_code51_response`:
`ProtocolHeader::json(0, len)` followed by the JSON bytes. -/
def handleCode51Reply : Bytes :=
  (ProtocolHeader.json 0 code50Json.length).to_bytes ++ code50Json

/-- The probe-state update of `UdpRouter::handle_code51_response`
(src/router/udp.rs): start at count 1, increment while in progress, move to
`Completed` once the count reaches 3, stay `Completed` afterwards. -/
def probe51Step : ProbeState → ProbeState
  | ProbeState.NotStarted => ProbeState.InProgress 1
  | ProbeState.InProgress count =>
      if 3 ≤ count + 1 then ProbeState.Completed else ProbeState.InProgress (count + 1)
  | ProbeState.Completed => ProbeState.Completed

/-- Source `UdpRouter::handle_code51_response`, per-session part: update the probe
state and send the code-50 reply (the reply is sent in every state). -/
def handleCode51 (s : ProbeState) : ProbeState × Bytes :=
  (probe51Step s, handleCode51Reply)

/-- The probe state after `n` code-51 messages handled by the UdpRouter
path, starting from a fresh session. -/
def probe51Run : Nat → ProbeState
  | 0 => ProbeState.NotStarted
  | n + 1 => probe51Step (probe51Run n)

/-- The protocol states referenced by `CameraPool::process_udp_message`
(src/camera.rs).  The `ProtocolState` enum that file imports is from a
`types.rs` revision not present under src/; only the two variants the
probe path uses are needed. -/
inductive CamProtocolState where
  | WaitingForCode51
  | Streaming
deriving DecidableEq

/-- The per-connection state `CameraPool::process_udp_message` touches on a
code-51 probe response. -/
structure CamPoolConn where
  code51_count : Nat
  protocol_state : CamProtocolState
deriving DecidableEq

/-- Source `CameraConnection::create_code50_message` (src/camera.rs): the manually
framed code-50 reply. -/
def create_code50_message : Bytes :=
  u32ToLe code50Json.length ++ u16ToLe 0 ++ [0] ++ [0] ++ asciiZeros8 ++ u32ToLe 0 ++ code50Json

/-- Source `CameraPool::process_udp_message` on `Message::ProbeResponse`
(src/camera.rs): send code 50, increment `code51_count`, and set the state
to `Streaming` once the count reaches 2. -/
def camPoolProbeStep (c : CamPoolConn) : CamPoolConn × Bytes :=
  let c := { c with code51_count := c.code51_count + 1 }
  (if 2 ≤ c.code51_count then { c with protocol_state := CamProtocolState.Streaming } else c,
    create_code50_message)

/-- The CameraPool connection after `n` code-51 probe responses, starting
from a fresh connection still waiting for code 51. -/
def camPoolRun : Nat → CamPoolConn
  | 0 => ⟨0, CamProtocolState.WaitingForCode51⟩
  | n + 1 => (camPoolProbeStep (camPoolRun n)).1

/-- C8 counterexample: in the `CameraPool::process_udp_message` dispatch path
the probe loop is already left after 2 code-51 exchanges (the state becomes
`Streaming` with the counter at 2, not 3), so the exchange is not marked
complete exactly after 3 exchanges in every dispatch path. -/
theorem c8_counterexample_campool_completes_after_two :
    (camPoolRun 2).protocol_state = CamProtocolState.Streaming
    ∧ (camPoolRun 2).code51_count = 2
    ∧ (camPoolRun 1).protocol_state ≠ CamProtocolState.Streaming := by
  refine ⟨by decide, by decide, by decide⟩

theorem probe51Run_add_three (n : Nat) : probe51Run (n + 3) = ProbeState.Completed := by
  induction n with
  | zero => decide
  | succ m ih =>
    show probe51Step (probe51Run (m + 3)) = ProbeState.Completed
    rw [ih]
    rfl

/-- C8 (amended): every inbound code-51 probe response is answered with the
cmd=0 JSON code-50 message in both dispatch paths; in the `UdpRouter` path
the exchange is marked `Completed` exactly after 3 exchanges (counting
through `InProgress n` before that), while in the `CameraPool` path the
counter always increments and the session is moved to `Streaming` already
after 2 exchanges. -/
theorem c8_amended_probe_loop (s : ProbeState) (c : CamPoolConn) :
    ((handleCode51 s).2 = handleCode51Reply)
    ∧ (∀ n, probe51Run n = ProbeState.Completed ↔ 3 ≤ n)
    ∧ (∀ n, 0 < n → n < 3 → probe51Run n = ProbeState.InProgress n)
    ∧ ((camPoolProbeStep c).2 = create_code50_message)
    ∧ ((camPoolProbeStep c).1.code51_count = c.code51_count + 1)
    ∧ (∀ n, (camPoolRun n).code51_count = n)
    ∧ (∀ n, 2 ≤ n → (camPoolRun n).protocol_state = CamProtocolState.Streaming) := by
  refine ⟨rfl, ?_, ?_, rfl, ?_, ?_, ?_⟩
  · intro n
    constructor
    · intro h
      by_contra hlt
      interval_cases n <;> simp [probe51Run, probe51Step] at h
    · intro h
      obtain ⟨m, rfl⟩ : ∃ m, n = m + 3 := ⟨n - 3, by omega⟩
      exact probe51Run_add_three m
  · intro n h0 h3
    interval_cases n <;> decide
  · simp [camPoolProbeStep]
    split <;> rfl
  · intro n
    induction n with
    | zero => rfl
    | succ m ih =>
      show (camPoolProbeStep (camPoolRun m)).1.code51_count = m + 1
      simp only [camPoolProbeStep]
      split <;> simp [ih]
  · intro n h
    obtain ⟨m, rfl⟩ : ∃ m, n = m + 2 := ⟨n - 2, by omega⟩
    induction m with
    | zero =>
      decide
    | succ k ih =>
      show (camPoolProbeStep (camPoolRun (k + 2))).1.protocol_state = CamProtocolState.Streaming
      have hcount : (camPoolRun (k + 2)).code51_count = k + 2 := by
        clear ih
        induction k with
        | zero => rfl
        | succ j ihj =>
          show (camPoolProbeStep (camPoolRun (j + 2))).1.code51_count = j + 2 + 1
          simp only [camPoolProbeStep]
          split <;> simp [ihj]
      simp only [camPoolProbeStep]
      rw [if_pos (by omega)]

theorem c8_amended_probe_loop_witness :
    probe51Run 2 = ProbeState.InProgress 2
    ∧ (probe51Run 3 = ProbeState.Completed)
    ∧ (camPoolRun 2).protocol_state = CamProtocolState.Streaming := by
  have h := c8_amended_probe_loop ProbeState.NotStarted ⟨0, CamProtocolState.WaitingForCode51⟩
  exact ⟨h.2.2.1 2 (by decide) (by decide), (h.2.1 3).mpr (by decide),
    h.2.2.2.2.2.2 2 (by decide)⟩

/-! Section JSON values and a byte-level model of `serde_json` parsing

`serde_json::from_slice` / `from_str` accept one JSON document, allow the
JSON whitespace characters (space, tab, LF, CR) around tokens, and reject
everything else — in particular a leading NUL byte is not whitespace and
fails the parse.  The model below implements that grammar over byte lists
(numbers restricted to integers and `\uXXXX` string escapes rejected:
no message evaluated in this development uses either). -/

/-- JSON values (`serde_json::Value`). -/
inductive Json where
  | jnull
  | jbool (b : Bool)
  | jnum (n : Int)
  | jstr (s : Bytes)
  | jarr (elems : List Json)
  | jobj (members : List (Bytes × Json))

/-- The four JSON whitespace bytes. -/
def isJsonWs (c : Nat) : Bool :=
  c = 32 ∨ c = 9 ∨ c = 10 ∨ c = 13

def skipWs : Bytes → Bytes
  | [] => []
  | c :: rest => if isJsonWs c then skipWs rest else c :: rest

/-- Single-character string escapes accepted by JSON. -/
def escByte (e : Nat) : Option Nat :=
  if e = 34 then some 34
  else if e = 92 then some 92
  else if e = 47 then some 47
  else if e = 98 then some 8
  else if e = 102 then some 12
  else if e = 110 then some 10
  else if e = 114 then some 13
  else if e = 116 then some 9
  else none

/-- Parse the remainder of a JSON string after the opening quote; raw
control bytes (below 0x20, NUL included) are rejected. -/
def parseStringRest : Bytes → Option (Bytes × Bytes)
  | [] => none
  | c :: rest =>
    if c = 34 then some ([], rest)
    else if c = 92 then
      match rest with
      | e :: rest2 =>
        match escByte e with
        | some b =>
          match parseStringRest rest2 with
          | some (str, r) => some (b :: str, r)
          | none => none
        | none => none
      | [] => none
    else if c < 32 then none
    else
      match parseStringRest rest with
      | some (str, r) => some (c :: str, r)
      | none => none

def takeDigits : Bytes → Nat → Nat × Bytes
  | c :: rest, acc =>
    if 48 ≤ c ∧ c ≤ 57 then takeDigits rest (acc * 10 + (c - 48)) else (acc, c :: rest)
  | [], acc => (acc, [])

/-- Parse an integer JSON number (optional minus sign, then digits). -/
def parseNumber : Bytes → Option (Int × Bytes)
  | 45 :: rest =>
    match rest with
    | c :: _ =>
      if 48 ≤ c ∧ c ≤ 57 then
        some (-((takeDigits rest 0).1 : Int), (takeDigits rest 0).2)
      else none
    | [] => none
  | s =>
    match s with
    | c :: _ =>
      if 48 ≤ c ∧ c ≤ 57 then
        some (((takeDigits s 0).1 : Int), (takeDigits s 0).2)
      else none
    | [] => none

/-- Parser mode: a single value, the element list of an array after `[`, or
the member list of an object after `{`. -/
inductive ParseMode where
  | value
  | arrElems
  | objMembers

/-- Parser output for the three modes. -/
inductive ParseOut where
  | val (j : Json)
  | elems (l : List Json)
  | members (l : List (Bytes × Json))

/-- Fueled recursive-descent JSON parser. -/
def parseP : Nat → ParseMode → Bytes → Option (ParseOut × Bytes)
  | 0, _, _ => none
  | fuel + 1, ParseMode.value, s =>
    match skipWs s with
    | [] => none
    | c :: rest =>
      if c = 110 then
        match rest with
        | 117 :: 108 :: 108 :: r => some (ParseOut.val Json.jnull, r)
        | _ => none
      else if c = 116 then
        match rest with
        | 114 :: 117 :: 101 :: r => some (ParseOut.val (Json.jbool true), r)
        | _ => none
      else if c = 102 then
        match rest with
        | 97 :: 108 :: 115 :: 101 :: r => some (ParseOut.val (Json.jbool false), r)
        | _ => none
      else if c = 34 then
        match parseStringRest rest with
        | some (str, r) => some (ParseOut.val (Json.jstr str), r)
        | none => none
      else if c = 91 then
        match skipWs rest with
        | 93 :: r => some (ParseOut.val (Json.jarr []), r)
        | r2 =>
          match parseP fuel ParseMode.arrElems r2 with
          | some (ParseOut.elems l, r) => some (ParseOut.val (Json.jarr l), r)
          | _ => none
      else if c = 123 then
        match skipWs rest with
        | 125 :: r => some (ParseOut.val (Json.jobj []), r)
        | r2 =>
          match parseP fuel ParseMode.objMembers r2 with
          | some (ParseOut.members l, r) => some (ParseOut.val (Json.jobj l), r)
          | _ => none
      else
        match parseNumber (c :: rest) with
        | some (n, r) => some (ParseOut.val (Json.jnum n), r)
        | none => none
  | fuel + 1, ParseMode.arrElems, s =>
    match parseP fuel ParseMode.value s with
    | some (ParseOut.val j, r) =>
      (match skipWs r with
       | 44 :: r2 =>
         match parseP fuel ParseMode.arrElems r2 with
         | some (ParseOut.elems l, r3) => some (ParseOut.elems (j :: l), r3)
         | _ => none
       | 93 :: r2 => some (ParseOut.elems [j], r2)
       | _ => none)
    | _ => none
  | fuel + 1, ParseMode.objMembers, s =>
    match skipWs s with
    | 34 :: rest =>
      match parseStringRest rest with
      | some (key, r) =>
        (match skipWs r with
         | 58 :: r2 =>
           match parseP fuel ParseMode.value r2 with
           | some (ParseOut.val j, r3) =>
             (match skipWs r3 with
              | 44 :: r4 =>
                match parseP fuel ParseMode.objMembers r4 with
                | some (ParseOut.members l, r5) => some (ParseOut.members ((key, j) :: l), r5)
                | _ => none
              | 125 :: r4 => some (ParseOut.members [(key, j)], r4)
              | _ => none)
           | _ => none
         | _ => none)
      | none => none
    | _ => none

/-- Source `serde_json` document parse: one value, only whitespace may follow. -/
def jsonParse (s : Bytes) : Option Json :=
  match parseP (2 * s.length + 2) ParseMode.value s with
  | some (ParseOut.val j, rest) => if skipWs rest = [] then some j else none
  | _ => none

/-! Section `src/protocol.rs` and `src/pipeline.rs`: control-message parsing -/

/-- Field lookup in a parsed JSON object (`Value` indexing). -/
def lookupKey (kvs : List (Bytes × Json)) (key : Bytes) : Option Json :=
  match kvs with
  | [] => none
  | (k, v) :: rest => if k = key then some v else lookupKey rest key

/-- Source `Value` indexing: objects look the key up, everything else gives null,
so `as_str`/`as_i64`/`as_u64` return `None`. -/
def indexKey (v : Json) (key : Bytes) : Option Json :=
  match v with
  | Json.jobj kvs => lookupKey kvs key
  | _ => none

def keyCode : Bytes := [99, 111, 100, 101]
def keyUid : Bytes := [117, 105, 100]
def keyToken : Bytes := [116, 111, 107, 101, 110]
def keyStatus : Bytes := [115, 116, 97, 116, 117, 115]
def keyDevIp : Bytes := [100, 101, 118, 73, 112]
def keyDevPort : Bytes := [100, 101, 118, 80, 111, 114, 116]
def keyDevNatIp : Bytes := [100, 101, 118, 78, 97, 116, 73, 112]
def keyDevNatPort : Bytes := [100, 101, 118, 78, 97, 116, 80, 111, 114, 116]
def keyCliTarget : Bytes := [99, 108, 105, 84, 97, 114, 103, 101, 116]
def keyCliToken : Bytes := [99, 108, 105, 84, 111, 107, 101, 110]
def keyDevTarget : Bytes := [100, 101, 118, 84, 97, 114, 103, 101, 116]
def keyCliNatPort : Bytes := [99, 108, 105, 78, 97, 116, 80, 111, 114, 116]

/-- Source `json_value[key].as_str().unwrap_or(dflt).to_string()`. -/
def strFieldD (v : Json) (key dflt : Bytes) : Bytes :=
  match indexKey v key with
  | some (Json.jstr s) => s
  | _ => dflt

/-- Source `json_value[key].as_str().map(to_string)`. -/
def strFieldOpt (v : Json) (key : Bytes) : Option Bytes :=
  match indexKey v key with
  | some (Json.jstr s) => some s
  | _ => none

/-- Source `json_value[key].as_u64().unwrap_or(dflt)` (negative numbers give
`None`, hence the default). -/
def u64FieldD (v : Json) (key : Bytes) (dflt : Nat) : Nat :=
  match indexKey v key with
  | some (Json.jnum n) => if 0 ≤ n then n.toNat else dflt
  | _ => dflt

/-- Source `json_value[key].as_i64()`. -/
def i64Field (v : Json) (key : Bytes) : Option Int :=
  match indexKey v key with
  | some (Json.jnum n) => some n
  | _ => none

/-- Source `i as u16` for an `i32`/`i64` value: wrap modulo 2^16. -/
def intAsU16 (i : Int) : Nat := (i % 65536).toNat

/-- Source `n as u16` for a `u64` value. -/
def natAsU16 (n : Nat) : Nat := n % 65536

/-- Source `ProtocolMessage` (src/protocol.rs), restricted to the fields the
dispatch in `parse_message` reads (`code` plus the optional `uid`, `token`,
`status`, `devIp`, `devPort`, `devNatIp`, `devNatPort`, `cliTarget`,
`cliToken`).  The remaining optional serde fields never influence the
dispatch. -/
structure ProtocolMessage where
  code : Int
  uid : Option Bytes
  token : Option Bytes
  status : Option Int
  dev_ip : Option Bytes
  dev_port : Option Int
  dev_nat_ip : Option Bytes
  dev_nat_port : Option Int
  cli_target : Option Bytes
  cli_token : Option Bytes

/-- Deserialize a parsed JSON value into `ProtocolMessage` the way serde
does: the input must be an object, `code` must be present as an integer in
`i32` range; an optional field may be absent or null (giving `None`) or
have the declared type, and a value of the wrong type fails the whole
deserialization. -/
def optStrMember (kvs : List (Bytes × Json)) (key : Bytes) : Option (Option Bytes) :=
  match lookupKey kvs key with
  | none => some none
  | some Json.jnull => some none
  | some (Json.jstr s) => some (some s)
  | some _ => none

def optI32Member (kvs : List (Bytes × Json)) (key : Bytes) : Option (Option Int) :=
  match lookupKey kvs key with
  | none => some none
  | some Json.jnull => some none
  | some (Json.jnum n) =>
    if -2147483648 ≤ n ∧ n < 2147483648 then some (some n) else none
  | some _ => none

def deserProtocolMessage (v : Json) : Option ProtocolMessage :=
  match v with
  | Json.jobj kvs => do
    let code ←
      match lookupKey kvs keyCode with
      | some (Json.jnum n) =>
        if -2147483648 ≤ n ∧ n < 2147483648 then some n else none
      | _ => none
    let uid ← optStrMember kvs keyUid
    let token ← optStrMember kvs keyToken
    let status ← optI32Member kvs keyStatus
    let dev_ip ← optStrMember kvs keyDevIp
    let dev_port ← optI32Member kvs keyDevPort
    let dev_nat_ip ← optStrMember kvs keyDevNatIp
    let dev_nat_port ← optI32Member kvs keyDevNatPort
    let cli_target ← optStrMember kvs keyCliTarget
    let cli_token ← optStrMember kvs keyCliToken
    some ⟨code, uid, token, status, dev_ip, dev_port, dev_nat_ip, dev_nat_port,
      cli_target, cli_token⟩
  | _ => none

/-- Source `parse_protocol_message` (src/protocol.rs): at least 20 bytes, a JSON
payload must follow the header, and the payload is parsed as
`ProtocolMessage` (`from_utf8_lossy` is the identity on the valid-UTF-8
payloads relevant here; replacement characters produced from invalid bytes
can never occur inside a document this grammar accepts). -/
def parse_protocol_message (data : Bytes) : Option ProtocolMessage :=
  if data.length < 20 then none
  else if data.length ≤ 20 then none
  else
    match jsonParse (data.drop 20) with
    | some v => deserProtocolMessage v
    | none => none

/-- Source `Message` (the serde enum of the `types.rs` revision src/pipeline.rs
imports; that file is not under src/, so the constructors are the ones
`parse_message` builds).  `serdeSelf` marks the first parse attempt
(`serde_json::from_slice::<Message>` over the whole input) succeeding;
a raw control frame starts with the 20-byte binary header, which is never
a JSON document, so this branch is unreachable for framed inputs. -/
inductive Msg where
  | keepalive
  | register (device_id : Bytes) (token : Option Bytes) (ip : Bytes) (port : Nat)
  | natProbeResponse (status : Nat) (dev_ip : Bytes) (dev_port : Nat)
      (dev_nat_ip : Bytes) (dev_nat_port : Nat) (cli_target : Bytes) (cli_token : Bytes)
  | startStreaming (device_id : Bytes) (cli_target : Bytes) (cli_token : Bytes)
      (cli_nat_port : Nat)
  | udpProbeRequest
  | triggerStreaming (device_id : Bytes) (dev_target : Bytes)
  | unknown (code : Nat) (data : Bytes)
  | serdeSelf (v : Json)

/-- ASCII `"0.0.0.0"`. -/
def asciiZeroIp : Bytes := [48, 46, 48, 46, 48, 46, 48]

/-- ASCII `"unknown"`. -/
def asciiUnknown : Bytes := [117, 110, 107, 110, 111, 119, 110]

/-- ASCII `""`. -/
def asciiEmpty : Bytes := []

/-- The code dispatch of `parse_message` over the JSON extracted at offset
20 (src/pipeline.rs, the `bytes.len() > 20` branch). -/
def dispatchJsonPart (v : Json) (json_part bytes : Bytes)
    (addr : Option (Bytes × Nat)) : Msg :=
  match i64Field v keyCode with
  | some code =>
    if code = 100 then
      Msg.register (strFieldD v keyUid asciiUnknown) (strFieldOpt v keyToken)
        (match addr with | some a => a.1 | none => asciiUnknown)
        (match addr with | some a => a.2 | none => 0)
    else if code = 11 then
      Msg.startStreaming (strFieldD v keyCliTarget asciiUnknown)
        (strFieldD v keyCliTarget asciiEmpty) (strFieldD v keyCliToken asciiEmpty)
        (natAsU16 (u64FieldD v keyCliNatPort 41234))
    else if code = 12 then
      Msg.natProbeResponse (natAsU16 (u64FieldD v keyStatus 0))
        (strFieldD v keyDevIp asciiEmpty) (natAsU16 (u64FieldD v keyDevPort 0))
        (strFieldD v keyDevNatIp asciiEmpty) (natAsU16 (u64FieldD v keyDevNatPort 0))
        (strFieldD v keyCliTarget asciiEmpty) (strFieldD v keyCliToken asciiEmpty)
    else if code = 20 then Msg.udpProbeRequest
    else if code = 21 then Msg.unknown 21 json_part
    else if code = 51 then
      Msg.triggerStreaming (strFieldD v keyDevTarget asciiUnknown)
        (strFieldD v keyDevTarget asciiUnknown)
    else if code = 999 then Msg.keepalive
    else Msg.unknown (intAsU16 code) json_part
  | none => Msg.unknown 0 bytes

/-- Source `parse_message` (src/pipeline.rs): a 20-byte message is the keepalive;
then `serde_json::from_slice::<Message>` over the whole input (never a JSON
document for header-framed bytes); then `parse_protocol_message` with its
code dispatch (code 100 without a uid falls through to the final unknown);
then, for longer messages, JSON extracted at offset 20 with its own code
dispatch; otherwise `Unknown code 0`. -/
def parse_message (bytes : Bytes) (addr : Option (Bytes × Nat)) : Msg :=
  if bytes.length = 20 then Msg.keepalive
  else
    match jsonParse bytes with
    | some v => Msg.serdeSelf v
    | none =>
      match parse_protocol_message bytes with
      | some pm =>
        if pm.code = 100 then
          match pm.uid with
          | some uid => Msg.register uid pm.token asciiZeroIp 6123
          | none => Msg.unknown 0 bytes
        else if pm.code = 12 then
          Msg.natProbeResponse (intAsU16 (pm.status.getD 0))
            (pm.dev_ip.getD asciiEmpty) (intAsU16 (pm.dev_port.getD 0))
            (pm.dev_nat_ip.getD asciiEmpty) (intAsU16 (pm.dev_nat_port.getD 0))
            (pm.cli_target.getD asciiEmpty) (pm.cli_token.getD asciiEmpty)
        else if pm.code = 999 then Msg.keepalive
        else Msg.unknown (intAsU16 pm.code) bytes
      | none =>
        if 20 < bytes.length then
          match jsonParse (bytes.drop 20) with
          | some v => dispatchJsonPart v (bytes.drop 20) bytes addr
          | none => Msg.unknown 0 bytes
        else Msg.unknown 0 bytes

/-! Section NUL handling: `src/router/tcp.rs` and `src/router/udp.rs` -/

/-- Source `str::trim_start_matches('\0')` at the byte level (NUL is a one-byte
UTF-8 character). -/
def trimNuls : Bytes → Bytes
  | 0 :: rest => trimNuls rest
  | s => s

def utf8Range (lo hi c : Nat) : Bool := decide (lo ≤ c ∧ c ≤ hi)

def utf8Cont (c : Nat) : Bool := utf8Range 128 191 c

/-- Source `String::from_utf8` validity over byte lists (RFC 3629: no overlong
encodings, no surrogates, nothing above U+10FFFF), fueled so that the
recursion is structural; every accepted character consumes at least one
byte, so `fuel = length` always suffices. -/
def validUtf8Fuel : Nat → Bytes → Bool
  | _, [] => true
  | 0, _ :: _ => false
  | fuel + 1, b :: rest =>
    if b ≤ 127 then validUtf8Fuel fuel rest
    else if b < 194 then false
    else if b ≤ 223 then
      match rest with
      | c :: rest2 => utf8Cont c && validUtf8Fuel fuel rest2
      | [] => false
    else if b = 224 then
      match rest with
      | c :: d :: rest2 => utf8Range 160 191 c && utf8Cont d && validUtf8Fuel fuel rest2
      | _ => false
    else if b ≤ 236 then
      match rest with
      | c :: d :: rest2 => utf8Cont c && utf8Cont d && validUtf8Fuel fuel rest2
      | _ => false
    else if b = 237 then
      match rest with
      | c :: d :: rest2 => utf8Range 128 159 c && utf8Cont d && validUtf8Fuel fuel rest2
      | _ => false
    else if b ≤ 239 then
      match rest with
      | c :: d :: rest2 => utf8Cont c && utf8Cont d && validUtf8Fuel fuel rest2
      | _ => false
    else if b = 240 then
      match rest with
      | c :: d :: e :: rest2 =>
        utf8Range 144 191 c && utf8Cont d && utf8Cont e && validUtf8Fuel fuel rest2
      | _ => false
    else if b ≤ 243 then
      match rest with
      | c :: d :: e :: rest2 =>
        utf8Cont c && utf8Cont d && utf8Cont e && validUtf8Fuel fuel rest2
      | _ => false
    else if b = 244 then
      match rest with
      | c :: d :: e :: rest2 =>
        utf8Range 128 143 c && utf8Cont d && utf8Cont e && validUtf8Fuel fuel rest2
      | _ => false
    else false

/-- Source `String::from_utf8` validity. -/
def validUtf8 (s : Bytes) : Bool := validUtf8Fuel s.length s

/-- The JSON stage of `TcpRouter::process_message` for cmd-0/87 frames
(src/router/tcp.rs): require the payload to be valid UTF-8, strip leading
NUL characters, then parse the JSON. -/
def tcpParseJson (payload : Bytes) : Option Json :=
  if validUtf8 payload then jsonParse (trimNuls payload) else none

/-- Source `UdpRouter::handle_code51_response` including its `String::from_utf8`
guard: the probe-state update and the code-50 reply happen exactly when the
payload is valid UTF-8 (the NUL-trimmed JSON text is only logged). -/
def handleCode51Response (payload : Bytes) (s : ProbeState) : ProbeState × Option Bytes :=
  if validUtf8 payload then (probe51Step s, some handleCode51Reply) else (s, none)

theorem validUtf8_cons_zero (r : Bytes) : validUtf8 (0 :: r) = validUtf8 r := rfl

theorem trimNuls_cons_zero (r : Bytes) : trimNuls (0 :: r) = trimNuls r := rfl

theorem validUtf8_replicate_zero (k : Nat) (p : Bytes) :
    validUtf8 (List.replicate k 0 ++ p) = validUtf8 p := by
  induction k with
  | zero => rfl
  | succ m ih => rw [List.replicate_succ, List.cons_append, validUtf8_cons_zero, ih]

theorem trimNuls_replicate_zero (k : Nat) (p : Bytes) :
    trimNuls (List.replicate k 0 ++ p) = trimNuls p := by
  induction k with
  | zero => rfl
  | succ m ih => rw [List.replicate_succ, List.cons_append, trimNuls_cons_zero, ih]

/-- The 20-byte header of the concrete registration frame used below
(length 22, cmd 0, msg_flag 0, forward id ASCII `"00000000"`, pkg id 0). -/
def regHeader : Bytes :=
  [22, 0, 0, 0, 0, 0, 0, 0, 48, 48, 48, 48, 48, 48, 48, 48, 0, 0, 0, 0]

/-- The JSON body with code 100 and uid `"A"`. -/
def regBody : Bytes :=
  [123, 34, 99, 111, 100, 101, 34, 58, 49, 48, 48, 44,
   34, 117, 105, 100, 34, 58, 34, 65, 34, 125]

/-- C4 counterexample: `parse_message` (src/pipeline.rs) does not strip
leading NUL bytes — the registration frame parses to `Register`, but the
same frame with a single NUL prefixed to the JSON body parses to
`Unknown 0`, not to the same message. -/
theorem c4_counterexample_parse_message_no_nul_strip :
    parse_message (regHeader ++ regBody) none =
      Msg.register [65] none asciiZeroIp 6123
    ∧ parse_message (regHeader ++ (0 :: regBody)) none =
      Msg.unknown 0 (regHeader ++ (0 :: regBody))
    ∧ parse_message (regHeader ++ (0 :: regBody)) none ≠
      parse_message (regHeader ++ regBody) none := by
  refine ⟨rfl, rfl, ?_⟩
  intro h
  rw [show parse_message (regHeader ++ (0 :: regBody)) none =
      Msg.unknown 0 (regHeader ++ (0 :: regBody)) from rfl,
    show parse_message (regHeader ++ regBody) none =
      Msg.register [65] none asciiZeroIp 6123 from rfl] at h
  exact Msg.noConfusion h

/-- C4 (amended): leading-NUL tolerance holds on the TCP-router JSON path
and on the UDP code-51 path — `TcpRouter::process_message` strips leading
NUL bytes after the UTF-8 check, so a body prefixed with 1..8 NUL bytes
parses to the same JSON value, and `handle_code51_response` behaves
identically under the prefix; the worker-pipeline `parse_message`,
by contrast, performs no stripping (see the counterexample). -/
theorem c4_amended_nul_tolerance_tcp_router (payload : Bytes) (k : Nat) (s : ProbeState)
    (h1 : 1 ≤ k) (h2 : k ≤ 8) :
    tcpParseJson (List.replicate k 0 ++ payload) = tcpParseJson payload
    ∧ handleCode51Response (List.replicate k 0 ++ payload) s =
        handleCode51Response payload s := by
  constructor
  · unfold tcpParseJson
    rw [validUtf8_replicate_zero, trimNuls_replicate_zero]
  · unfold handleCode51Response
    rw [validUtf8_replicate_zero]

theorem c4_amended_nul_tolerance_tcp_router_witness :
    tcpParseJson (List.replicate 1 0 ++ regBody) = tcpParseJson regBody
    ∧ handleCode51Response (List.replicate 1 0 ++ regBody) ProbeState.NotStarted =
        handleCode51Response regBody ProbeState.NotStarted :=
  c4_amended_nul_tolerance_tcp_router regBody 1 ProbeState.NotStarted
    (by decide) (by decide)

end A9V720
